import Mathlib

/-!
Verification of the `python-rayhunter` client library.

This file shallowly embeds the three modules of the repository
(`src/rayhunter/system_stats.py`, `src/rayhunter/manifest.py`,
`src/rayhunter/api.py`) into Lean and proves properties of the embedding.

Conventions of the embedding:
* Python `float` values are modelled exactly as IEEE-754 binary64 numbers,
  represented by the rational they denote (constructor `PyFloat.finite`),
  together with infinities and NaN.  Decimal-string-to-float conversion is
  the correctly rounded (round-half-to-even) conversion that CPython
  performs; multiplication rounds its exact rational product the same way.
* Python exceptions are modelled by the error type `PyErr`; fallible code
  returns `Except PyErr _`.  All modelled functions are pure; functions of
  the source that mutate their argument (the `from_dict` deserializers
  mutate the dict passed in) additionally return the final state of that
  dict, on success and on error alike.
* Python `dict`s appearing in the code are insertion-ordered association
  lists (`PyDict`); assignment to an existing key replaces the value in
  place, assignment to a fresh key appends.
-/

set_option exponentiation.threshold 4000

set_option maxRecDepth 16000

/-- Python exceptions raised (directly or by builtins) in the code paths of
this repository. -/
inductive PyErr
  | valueError (msg : String)
  | indexError
  | typeError
  | keyError
  | attributeError
  | overflowError
  | jsonDecodeError
  | httpError (status : Nat)
deriving DecidableEq, Repr

/-- Decidable equality for `Except`, so that concrete runs of the embedded
functions can be checked by `decide`. -/
instance exceptDecEq {ε α : Type} [DecidableEq ε] [DecidableEq α] :
    DecidableEq (Except ε α) := fun x y =>
  match x, y with
  | .ok a, .ok b =>
    if h : a = b then isTrue (by rw [h]) else isFalse (fun hh => h (Except.ok.inj hh))
  | .error a, .error b =>
    if h : a = b then isTrue (by rw [h]) else isFalse (fun hh => h (Except.error.inj hh))
  | .ok _, .error _ => isFalse (fun hh => Except.noConfusion hh)
  | .error _, .ok _ => isFalse (fun hh => Except.noConfusion hh)

/-- An exact rational with explicitly positive (nonzero) denominator and
no normalization, used to model real-number and binary64 values: every
operation below is plain `Int`/`Nat` arithmetic, so concrete runs reduce
inside the kernel.  All constructions keep `den` a product of positive
numbers. -/
structure PRat where
  num : ℤ
  den : ℕ
deriving DecidableEq, Repr

/-- The rational `n / 1`. -/
def PRat.ofInt (n : ℤ) : PRat := ⟨n, 1⟩

/-- Exact negation. -/
def PRat.neg (q : PRat) : PRat := ⟨-q.num, q.den⟩

/-- Exact product. -/
def PRat.mul (a b : PRat) : PRat := ⟨a.num * b.num, a.den * b.den⟩

/-- Strict comparison by cross multiplication (denominators positive). -/
def PRat.blt (a b : PRat) : Bool := a.num * (b.den : ℤ) < b.num * (a.den : ℤ)

/-- Non-strict comparison by cross multiplication. -/
def PRat.ble (a b : PRat) : Bool := a.num * (b.den : ℤ) ≤ b.num * (a.den : ℤ)

/-- Floor, via Euclidean division by the positive denominator. -/
def PRat.floor (q : PRat) : ℤ := q.num.ediv q.den

/-- Exact multiplication by `2 ^ e` for an integer exponent `e`. -/
def PRat.mulPow2 (q : PRat) (e : ℤ) : PRat :=
  if 0 ≤ e then ⟨q.num * ((2 ^ e.toNat : ℕ) : ℤ), q.den⟩
  else ⟨q.num, q.den * 2 ^ (-e).toNat⟩

/-- `2 ^ e` as an exact rational. -/
def pow2P (e : ℤ) : PRat := PRat.mulPow2 ⟨1, 1⟩ e

/-- Truncation toward zero, the behaviour of Python `int(x)` on a finite
float `x`. -/
def truncP (q : PRat) : ℤ :=
  if 0 ≤ q.num then q.num.ediv q.den else -((-q.num).ediv q.den)

/-- Round to the nearest integer, ties to even — the rounding rule of
IEEE-754 binary64 arithmetic and of Python builtin `round`. -/
def roundHalfEvenP (q : PRat) : ℤ :=
  let fl := q.floor
  let rem := q.num - fl * (q.den : ℤ)
  if 2 * rem < (q.den : ℤ) then fl
  else if (q.den : ℤ) < 2 * rem then fl + 1
  else if fl % 2 = 0 then fl else fl + 1

/-- Fuelled floor-log2 on naturals (structural recursion so that the kernel
can evaluate it). -/
def log2fuel : ℕ → ℕ → ℕ
  | 0, _ => 0
  | f + 1, n => if n ≤ 1 then 0 else log2fuel f (n / 2) + 1

/-- `⌊log₂ n⌋` for `n ≥ 1` (junk value `0` at `0`). -/
def natLog2 (n : ℕ) : ℕ := log2fuel n n

/-- `⌊log₂ q⌋` for a positive rational `q` (junk value elsewhere). -/
def floorLog2P (q : PRat) : ℤ :=
  let c : ℤ := (natLog2 q.num.toNat : ℤ) - (natLog2 q.den : ℤ)
  if q.blt (pow2P c) then c - 1 else c

/-- Round a positive rational to the binary64 grid with unbounded upper
exponent: 53 significant bits for normal magnitudes, and granularity
`2 ^ (-1074)` in the subnormal range. -/
def roundPosDoubleP (q : PRat) : PRat :=
  PRat.mulPow2 ⟨roundHalfEvenP (q.mulPow2 (-(max (floorLog2P q - 52) (-1074)))), 1⟩
    (max (floorLog2P q - 52) (-1074))

/-- The value of a Python `float` (IEEE-754 binary64). -/
inductive PyFloat
  | finite (q : PRat)
  | inf
  | ninf
  | nan
deriving DecidableEq, Repr

/-- Correctly rounded conversion of an exact rational to binary64: values
whose rounded magnitude reaches `2 ^ 1024` overflow to an infinity. -/
def roundDouble (q : PRat) : PyFloat :=
  if q.num = 0 then .finite ⟨0, 1⟩
  else if 0 < q.num then
    (if (pow2P 1024).ble (roundPosDoubleP q) then .inf else .finite (roundPosDoubleP q))
  else
    (if (pow2P 1024).ble (roundPosDoubleP q.neg) then .ninf
     else .finite (roundPosDoubleP q.neg).neg)

/-- IEEE-754 binary64 multiplication: exact product, correctly rounded. -/
def floatMul : PyFloat → PyFloat → PyFloat
  | .nan, _ => .nan
  | _, .nan => .nan
  | .finite a, .finite b => roundDouble (a.mul b)
  | .inf, .inf => .inf
  | .inf, .ninf => .ninf
  | .ninf, .inf => .ninf
  | .ninf, .ninf => .inf
  | .inf, .finite b => if b.num = 0 then .nan else if 0 < b.num then .inf else .ninf
  | .finite a, .inf => if a.num = 0 then .nan else if 0 < a.num then .inf else .ninf
  | .ninf, .finite b => if b.num = 0 then .nan else if 0 < b.num then .ninf else .inf
  | .finite a, .ninf => if a.num = 0 then .nan else if 0 < a.num then .ninf else .inf

/-- Python `int(x)` on a float `x`: truncation toward zero; an infinity
raises `OverflowError`, NaN raises `ValueError`. -/
def pyIntOfFloat : PyFloat → Except PyErr ℤ
  | .finite q => .ok (truncP q)
  | .nan => .error (.valueError "cannot convert float NaN to integer")
  | _ => .error .overflowError

/-- Python builtin `round` on an exact value: nearest integer, ties to
even. -/
def pyRound (q : PRat) : ℤ := roundHalfEvenP q

/-- Leading-sign split of Python numeric-literal parsing: consume one
optional `-` or `+`. -/
def splitSign (l : List Char) : Bool × List Char :=
  match l with
  | [] => (false, [])
  | c :: r => if c = '-' then (true, r) else if c = '+' then (false, r) else (false, c :: r)

/-- Decimal value of a digit list (most significant first). -/
def decDigitsVal (l : List Char) : ℕ := l.foldl (fun a c => 10 * a + (c.toNat - 48)) 0

/-- Exact rational denoted by a decimal string accepted by Python
`float()`, in the grammar exercised by this repository: an optional sign,
then digits with at most one decimal point and at least one digit
(`"8"`, `"214.7"`, `"5."`, `".5"`, `"-1.25"`).  Exponent forms, `inf`/`nan`
spellings, surrounding whitespace and digit-group underscores are not
produced by the rayhunter appliance and are left out; on them this parser
answers `none` (a `ValueError` in the caller).  `pySignVal` applies the
parsed sign, `pyFloatParseBody` parses the unsigned part, `pyFloatParseL`
is the whole grammar. -/
def pySignVal (neg : Bool) (q : PRat) : PRat := if neg then q.neg else q

/-- Exact rational `ip + fp / 10 ^ |fp|` of an integer digit part and a
fractional digit part. -/
def decPointVal (ip fp : List Char) : PRat :=
  ⟨((decDigitsVal ip * 10 ^ fp.length + decDigitsVal fp : ℕ) : ℤ), 10 ^ fp.length⟩

/-- Value of integer part `ip` with what follows the first decimal point
(if any) still to parse. -/
def pyFloatParseTail (neg : Bool) (ip : List Char) : List Char → Option PRat
  | [] =>
    if ip.all Char.isDigit && !ip.isEmpty then
      some (pySignVal neg (PRat.ofInt (decDigitsVal ip : ℤ)))
    else none
  | _ :: fp =>
    if (ip.all Char.isDigit && fp.all Char.isDigit) && !(ip.isEmpty && fp.isEmpty) then
      some (pySignVal neg (decPointVal ip fp))
    else none

/-- Body of the decimal parse, after the sign has been split off: integer
part before an optional single decimal point, fractional part after it. -/
def pyFloatParseBody (neg : Bool) (m : List Char) : Option PRat :=
  pyFloatParseTail neg (m.takeWhile (fun c => c != '.')) (m.dropWhile (fun c => c != '.'))

def pyFloatParseL (l : List Char) : Option PRat :=
  pyFloatParseBody (splitSign l).1 (splitSign l).2

/-- `pyFloatParseL` on a `String`. -/
def pyFloatParse (s : String) : Option PRat := pyFloatParseL s.data

/-- Python `float(s)`: parse the decimal literal and round it to binary64
(CPython performs the correctly rounded conversion); unparsable strings
raise `ValueError` (CPython quotes the offending string in the message;
the quotes are elided here). -/
def pyFloatOfString (s : String) : Except PyErr PyFloat :=
  match pyFloatParse s with
  | none => .error (.valueError ("could not convert string to float: " ++ s))
  | some q => .ok (roundDouble q)

/-- Python `s.rstrip(c)` for a single-character strip set: remove every
trailing occurrence of `c`. -/
def rstripChar (s : String) (c : Char) : String :=
  String.mk ((s.data.reverse.dropWhile (fun x => x == c)).reverse)

/-- `_size_str_to_int` of `src/rayhunter/system_stats.py` lines 4-12:

    if size[-1] != "M":
        raise ValueError(f"Unsupported size suffix: ... ")
    return int(float(size.rstrip("M")) * 1048576)

`size[-1]` on the empty string raises `IndexError`; the literal `1048576`
is exact in binary64, and the multiplication is a float multiplication. -/
def _size_str_to_int (size : String) : Except PyErr ℤ :=
  match size.data.getLast? with
  | none => .error .indexError
  | some c =>
    if c = 'M' then
      match pyFloatOfString (rstripChar size 'M') with
      | .error e => .error e
      | .ok f => pyIntOfFloat (floatMul f (.finite (PRat.ofInt 1048576)))
    else
      .error (.valueError ("Unsupported size suffix: " ++ String.singleton c ++ " (" ++ size ++ ")"))

/-- Modelled from the spec (claim C1's right-hand side): the expression
`int(float(p) * 1048576)` applied to the decimal part `p` of a size
string, with `float`, `*` and `int` carrying their Python semantics as
above.  To be compared against `_size_str_to_int`. -/
def specSizeBytes (p : String) : Except PyErr ℤ :=
  match pyFloatOfString p with
  | .error e => .error e
  | .ok f => pyIntOfFloat (floatMul f (.finite (PRat.ofInt 1048576)))

/-- Python `int(s)` on a string in the grammar exercised here: optional
sign then decimal digits; anything else raises `ValueError`. -/
def pyIntOfString (s : String) : Except PyErr ℤ :=
  let sp := splitSign s.data
  if sp.2.all Char.isDigit && !sp.2.isEmpty then
    .ok (if sp.1 then -(decDigitsVal sp.2 : ℤ) else (decDigitsVal sp.2 : ℤ))
  else .error (.valueError ("invalid literal for int with base 10: " ++ s))

/-- A Python runtime value, as far as this repository manipulates them:
JSON scalars, lists, (string-keyed, insertion-ordered) dicts, `None`, and
`QmdlManifestEntry` dataclass instances (which `QmdlManifest.from_dict`
stores back into the dict it is converting).  The `entry` constructor
carries the five fields of the dataclass in declaration order; dataclass
equality is field-wise, which constructor equality models. -/
inductive PyVal
  | str (s : String)
  | int (n : ℤ)
  | pynone
  | list (l : List PyVal)
  | dict (d : List (String × PyVal))
  | entry (name start_time last_message_time qmdl_size_bytes analysis_size_bytes : PyVal)

/-- A Python dict with string keys: insertion-ordered association list. -/
abbrev PyDict := List (String × PyVal)

/-- Python `d[k]` read: first (unique, in a real dict) binding of `k`. -/
def dGet : PyDict → String → Option PyVal
  | [], _ => none
  | (k0, v0) :: rest, k => if k0 = k then some v0 else dGet rest k

/-- Python `d[k] = v`: replace the value of an existing key in place,
append a fresh key at the end (insertion order). -/
def dSet : PyDict → String → PyVal → PyDict
  | [], k, v => [(k, v)]
  | (k0, v0) :: rest, k, v => if k0 = k then (k0, v) :: rest else (k0, v0) :: dSet rest k v

/-- `x is None` / `is not None` test against the `None` singleton. -/
def PyVal.isNone : PyVal → Bool
  | .pynone => true
  | _ => false

/-- Field names of the `QmdlManifestEntry` dataclass
(`src/rayhunter/manifest.py`). -/
def entryFieldNames : List String :=
  [ "name", "start_time", "last_message_time", "qmdl_size_bytes", "analysis_size_bytes" ]

/-- `QmdlManifestEntry(**x)`: keyword construction requires the dict keys
to be exactly the dataclass field names (missing or extra keys raise
`TypeError`); the dataclass performs no type validation of the values. -/
def entryFromKwargs (d : PyDict) : Except PyErr PyVal :=
  match dGet d "name", dGet d "start_time", dGet d "last_message_time",
        dGet d "qmdl_size_bytes", dGet d "analysis_size_bytes" with
  | some n, some st, some lt, some qs, some az =>
    if (d.map Prod.fst).all (fun k => entryFieldNames.contains k) then
      .ok (.entry n st lt qs az)
    else .error .typeError
  | _, _, _, _, _ => .error .typeError

/-- The `QmdlManifest` dataclass: its two fields, holding whatever values
keyword construction received (the dataclass performs no validation). -/
structure QmdlManifest where
  entries : PyVal
  current_entry : PyVal

/-- `QmdlManifest(**d)`: keys must be exactly `entries` and
`current_entry`. -/
def manifestFromKwargs (d : PyDict) : Except PyErr QmdlManifest :=
  match dGet d "entries", dGet d "current_entry" with
  | some e, some c =>
    if (d.map Prod.fst).all (fun k => k = "entries" ∨ k = "current_entry") then
      .ok ⟨e, c⟩
    else .error .typeError
  | _, _ => .error .typeError

/-- The list comprehension `[QmdlManifestEntry(**x) for x in ...]`:
left-to-right, aborting at the first failing element; a non-dict element
fails keyword expansion with `TypeError`. -/
def entriesComp : List PyVal → Except PyErr (List PyVal)
  | [] => .ok []
  | x :: xs =>
    match x with
    | .dict xd =>
      match entryFromKwargs xd with
      | .error e => .error e
      | .ok v =>
        match entriesComp xs with
        | .error e => .error e
        | .ok vs => .ok (v :: vs)
    | _ => .error .typeError

/-- `QmdlManifest.from_dict` (`src/rayhunter/manifest.py` lines 42-47):

    qmdl_manifest["entries"] = [QmdlManifestEntry(**x) for x in qmdl_manifest["entries"]]
    if qmdl_manifest["current_entry"] is not None:
        qmdl_manifest["current_entry"] = QmdlManifestEntry(**qmdl_manifest["current_entry"])
    return QmdlManifest(**qmdl_manifest)

The input dict is mutated in place; the second component of the result is
its final state (also when an exception aborts the conversion).  Reading a
missing key raises `KeyError`; iterating a non-list `entries` value or
keyword-expanding a non-dict `current_entry` raises `TypeError`. -/
def QmdlManifest.from_dict (d0 : PyDict) : Except PyErr QmdlManifest × PyDict :=
  match dGet d0 "entries" with
  | none => (.error .keyError, d0)
  | some (.list xs) =>
    match entriesComp xs with
    | .error e => (.error e, d0)
    | .ok es =>
      let d1 := dSet d0 "entries" (.list es)
      match dGet d1 "current_entry" with
      | none => (.error .keyError, d1)
      | some .pynone => (manifestFromKwargs d1, d1)
      | some (.dict cd) =>
        match entryFromKwargs cd with
        | .error e => (.error e, d1)
        | .ok ce =>
          let d2 := dSet d1 "current_entry" ce
          (manifestFromKwargs d2, d2)
      | some _ => (.error .typeError, d1)
  | some _ => (.error .typeError, d0)

/-- The check `manifest.current_entry is not None` that the
`RayhunterApi.active_recording` property performs on a fetched manifest
(`src/rayhunter/api.py` lines 12-19). -/
def activeRecordingCheck (m : QmdlManifest) : Bool := !m.current_entry.isNone

/-- The `DiskStats` dataclass fields (no runtime type validation). -/
structure DiskStats where
  partition : PyVal
  total_size : PyVal
  used_size : PyVal
  available_size : PyVal
  used_percent : PyVal
  mounted_on : PyVal

/-- `_size_str_to_int(v)` on a dict value: subscripting a non-string with
`[-1]` raises `TypeError`. -/
def sizeConvVal : PyVal → Except PyErr ℤ
  | .str s => _size_str_to_int s
  | _ => .error .typeError

/-- `int(v.rstrip("%"))` on a dict value: `.rstrip` on a non-string raises
`AttributeError`. -/
def percentConvVal : PyVal → Except PyErr ℤ
  | .str s => pyIntOfString (rstripChar s '%')
  | _ => .error .attributeError

/-- One iteration of the size-conversion loop of `DiskStats.from_dict` /
`MemoryStats.from_dict`: `d[k] = _size_str_to_int(d[k])`. -/
def convSizeKey (d : PyDict) (k : String) : Except PyErr PyDict :=
  match dGet d k with
  | none => .error .keyError
  | some v =>
    match sizeConvVal v with
    | .error e => .error e
    | .ok n => .ok (dSet d k (.int n))

/-- `DiskStats(**d)`: keys must be exactly the six field names. -/
def diskFromKwargs (d : PyDict) : Except PyErr DiskStats :=
  match dGet d "partition", dGet d "total_size", dGet d "used_size",
        dGet d "available_size", dGet d "used_percent", dGet d "mounted_on" with
  | some p, some t, some u, some a, some up, some mo =>
    if (d.map Prod.fst).all (fun k =>
        k = "partition" ∨ k = "total_size" ∨ k = "used_size" ∨
        k = "available_size" ∨ k = "used_percent" ∨ k = "mounted_on") then
      .ok ⟨p, t, u, a, up, mo⟩
    else .error .typeError
  | _, _, _, _, _, _ => .error .typeError

/-- `DiskStats.from_dict` (`src/rayhunter/system_stats.py` lines 39-44):

    for size_key in ["total_size", "used_size", "available_size"]:
        disk_stats[size_key] = _size_str_to_int(disk_stats[size_key])
    disk_stats["used_percent"] = int(disk_stats["used_percent"].rstrip("%"))
    return DiskStats(**disk_stats)

Mutates the dict key by key, left to right; the second component is the
dict's final state, also when a conversion raises. -/
def DiskStats.from_dict (d0 : PyDict) : Except PyErr DiskStats × PyDict :=
  match convSizeKey d0 "total_size" with
  | .error e => (.error e, d0)
  | .ok d1 =>
    match convSizeKey d1 "used_size" with
    | .error e => (.error e, d1)
    | .ok d2 =>
      match convSizeKey d2 "available_size" with
      | .error e => (.error e, d2)
      | .ok d3 =>
        match dGet d3 "used_percent" with
        | none => (.error .keyError, d3)
        | some v =>
          match percentConvVal v with
          | .error e => (.error e, d3)
          | .ok n =>
            let d4 := dSet d3 "used_percent" (.int n)
            (diskFromKwargs d4, d4)

/-- The `MemoryStats` dataclass fields (no runtime type validation). -/
structure MemoryStats where
  total : PyVal
  used : PyVal
  free : PyVal

/-- `MemoryStats(**d)`: keys must be exactly `total`, `used`, `free`. -/
def memFromKwargs (d : PyDict) : Except PyErr MemoryStats :=
  match dGet d "total", dGet d "used", dGet d "free" with
  | some t, some u, some f =>
    if (d.map Prod.fst).all (fun k => k = "total" ∨ k = "used" ∨ k = "free") then
      .ok ⟨t, u, f⟩
    else .error .typeError
  | _, _, _ => .error .typeError

/-- `MemoryStats.from_dict` (`src/rayhunter/system_stats.py` lines 65-69):
the same key-by-key `_size_str_to_int` loop over `total`, `used`, `free`,
followed by `MemoryStats(**memory_stats)`. -/
def MemoryStats.from_dict (d0 : PyDict) : Except PyErr MemoryStats × PyDict :=
  match convSizeKey d0 "total" with
  | .error e => (.error e, d0)
  | .ok d1 =>
    match convSizeKey d1 "used" with
    | .error e => (.error e, d1)
    | .ok d2 =>
      match convSizeKey d2 "free" with
      | .error e => (.error e, d2)
      | .ok d3 => (memFromKwargs d3, d3)

/-- The `SystemStats` dataclass: one `DiskStats` and one `MemoryStats`. -/
structure SystemStats where
  disk_stats : DiskStats
  memory_stats : MemoryStats

/-- `SystemStats.from_dict` (`src/rayhunter/system_stats.py`): converts the
`disk_stats` sub-dict, then the `memory_stats` sub-dict (Python evaluates
the keyword arguments left to right).  The source mutates the two nested
dicts through aliasing; that outer-dict frame effect is not needed by any
property proved here and is not tracked. -/
def SystemStats.from_dict (d : PyDict) : Except PyErr SystemStats :=
  match dGet d "disk_stats" with
  | none => .error .keyError
  | some (.dict dd) =>
    match (DiskStats.from_dict dd).1 with
    | .error e => .error e
    | .ok ds =>
      match dGet d "memory_stats" with
      | none => .error .keyError
      | some (.dict md) =>
        match (MemoryStats.from_dict md).1 with
        | .error e => .error e
        | .ok ms => .ok ⟨ds, ms⟩
      | some _ => .error .typeError
  | some _ => .error .typeError

/-- An HTTP response as the `requests` library presents it to this client:
a status code, the JSON decoding of the body (`none` when `.json()` would
raise), and the raw body bytes. -/
structure HttpResponse where
  status : ℕ
  jsonBody : Option PyVal
  content : List ℕ

/-- The HTTP transport (the `requests` module): a function from URL to
response, one for GET and one for POST. -/
structure Transport where
  get : String → HttpResponse
  post : String → HttpResponse

/-- `response.raise_for_status()` of the `requests` library: raises
`requests.HTTPError` exactly for client-error (4xx) and server-error (5xx)
status codes; 1xx/2xx/3xx codes pass. -/
def raise_for_status (r : HttpResponse) : Except PyErr Unit :=
  if 400 ≤ r.status ∧ r.status < 600 then .error (.httpError r.status) else .ok ()

/-- `response.json()`: the decoded body, or a decode error. -/
def responseJson (r : HttpResponse) : Except PyErr PyVal :=
  match r.jsonBody with
  | none => .error .jsonDecodeError
  | some v => .ok v

/-- `urllib.parse.urljoin(base, rel)` in the only shape this client uses
it: `base` is `http://host:port/` (always ending in a slash) and `rel` is
an absolute path, so the join replaces the base's path. -/
def urljoinAbs (base rel : String) : String := base.dropRight 1 ++ rel

/-- The `RayhunterApi` client object: holds only the base URL built by
`__init__`. -/
structure RayhunterApi where
  _url : String

/-- `RayhunterApi.__init__(hostname, port)`. -/
def RayhunterApi.init (hostname : String) (port : ℕ) : RayhunterApi :=
  ⟨ "http://" ++ hostname ++ ":" ++ toString port ++ "/" ⟩

/-- `RayhunterApi._get_file_content`: GET the endpoint, raise for status,
then stream the whole body into memory and return its bytes. -/
def RayhunterApi._get_file_content (api : RayhunterApi) (t : Transport)
    (api_endpoint : String) : Except PyErr (List ℕ) :=
  match raise_for_status (t.get (urljoinAbs api._url api_endpoint)) with
  | .error e => .error e
  | .ok _ => .ok (t.get (urljoinAbs api._url api_endpoint)).content

/-- `RayhunterApi.get_manifest`: GET `/api/qmdl-manifest`, raise for
status, then deserialize the JSON body through
`QmdlManifest.from_dict`. -/
def RayhunterApi.get_manifest (api : RayhunterApi) (t : Transport) :
    Except PyErr QmdlManifest :=
  match raise_for_status (t.get (urljoinAbs api._url "/api/qmdl-manifest")) with
  | .error e => .error e
  | .ok _ =>
    match responseJson (t.get (urljoinAbs api._url "/api/qmdl-manifest")) with
    | .error e => .error e
    | .ok (.dict d) => (QmdlManifest.from_dict d).1
    | .ok _ => .error .typeError

/-- The `RayhunterApi.active_recording` property: fetch a fresh manifest
and test `current_entry is not None`. -/
def RayhunterApi.active_recording (api : RayhunterApi) (t : Transport) :
    Except PyErr Bool :=
  match api.get_manifest t with
  | .error e => .error e
  | .ok m => .ok (activeRecordingCheck m)

/-- `RayhunterApi.get_analysis_report_file`. -/
def RayhunterApi.get_analysis_report_file (api : RayhunterApi) (t : Transport)
    (filename : String) : Except PyErr (List ℕ) :=
  api._get_file_content t ("/api/analysis-report/" ++ filename)

/-- `RayhunterApi.get_pcap_file`. -/
def RayhunterApi.get_pcap_file (api : RayhunterApi) (t : Transport)
    (filename : String) : Except PyErr (List ℕ) :=
  api._get_file_content t ("/api/pcap/" ++ filename)

/-- `RayhunterApi.get_qmdl_file`. -/
def RayhunterApi.get_qmdl_file (api : RayhunterApi) (t : Transport)
    (filename : String) : Except PyErr (List ℕ) :=
  api._get_file_content t ("/api/qmdl/" ++ filename)

/-- `RayhunterApi.start_recording`: POST `/api/start-recording` and raise
for status. -/
def RayhunterApi.start_recording (api : RayhunterApi) (t : Transport) :
    Except PyErr Unit :=
  raise_for_status (t.post (urljoinAbs api._url "/api/start-recording"))

/-- `RayhunterApi.stop_recording`: POST `/api/stop-recording` and raise
for status. -/
def RayhunterApi.stop_recording (api : RayhunterApi) (t : Transport) :
    Except PyErr Unit :=
  raise_for_status (t.post (urljoinAbs api._url "/api/stop-recording"))

/-- `RayhunterApi.system_stats`: GET `/api/system-stats`, raise for
status, deserialize through `SystemStats.from_dict`. -/
def RayhunterApi.system_stats (api : RayhunterApi) (t : Transport) :
    Except PyErr SystemStats :=
  match raise_for_status (t.get (urljoinAbs api._url "/api/system-stats")) with
  | .error e => .error e
  | .ok _ =>
    match responseJson (t.get (urljoinAbs api._url "/api/system-stats")) with
    | .error e => .error e
    | .ok (.dict d) => SystemStats.from_dict d
    | .ok _ => .error .typeError

/-! ## Helper lemmas -/

theorem digit_beq_false (x c : Char) (hx : x.isDigit = true) (hc : c.isDigit = false) :
    (x == c) = false := by
  cases h : x == c
  · rfl
  · rw [eq_of_beq h] at hx
    rw [hx] at hc
    cases hc

theorem dropWhile_beq_eq_self (c : Char) (l : List Char) (h : ∀ x ∈ l, (x == c) = false) :
    l.dropWhile (fun x => x == c) = l := by
  cases l with
  | nil => rfl
  | cons a t => simp [List.dropWhile_cons, h a (List.mem_cons_self a t)]

theorem rstrip_append_single (l : List Char) (c : Char) (h : ∀ x ∈ l, (x == c) = false) :
    rstripChar (String.mk (l ++ [c])) c = String.mk l := by
  unfold rstripChar
  have h1 : (l ++ [c]).reverse = c :: l.reverse := by
    rw [List.reverse_append, List.reverse_singleton, List.singleton_append]
  rw [h1, List.dropWhile_cons]
  simp only [beq_self_eq_true, if_true]
  rw [dropWhile_beq_eq_self c l.reverse (fun x hx => h x (List.mem_reverse.1 hx))]
  rw [List.reverse_reverse]

theorem getLast?_append_single (l : List Char) (c : Char) :
    (l ++ [c]).getLast? = some c := by
  induction l with
  | nil => rfl
  | cons a t ih =>
    rw [List.cons_append]
    cases ht : t ++ [c] with
    | nil => cases List.append_ne_nil_of_right_ne_nil t (by simp : ([c] : List Char) ≠ []) ht
    | cons b u =>
      rw [List.getLast?_cons_cons, ← ht]
      exact ih

theorem dropWhile_head_false (p : Char → Bool) :
    ∀ (l : List Char) (y : Char) (ys : List Char), l.dropWhile p = y :: ys → p y = false := by
  intro l
  induction l with
  | nil => intro y ys h; cases h
  | cons a t ih =>
    intro y ys h
    rw [List.dropWhile_cons] at h
    by_cases ha : p a = true
    · rw [if_pos ha] at h
      exact ih y ys h
    · rw [if_neg ha] at h
      injection h with h1 _
      rw [← h1]
      exact Bool.eq_false_iff.2 ha

theorem parseBody_chars (neg : Bool) (m : List Char) (q : PRat)
    (h : pyFloatParseBody neg m = some q) :
    ∀ x ∈ m, x = '.' ∨ x.isDigit = true := by
  intro x hx
  unfold pyFloatParseBody at h
  cases hrest : m.dropWhile (fun c => c != '.') with
  | nil =>
    rw [hrest] at h
    simp only [pyFloatParseTail] at h
    by_cases hc : ((m.takeWhile (fun c => c != '.')).all Char.isDigit
        && !(m.takeWhile (fun c => c != '.')).isEmpty) = true
    · have hm : m = m.takeWhile (fun c => c != '.') := by
        conv_lhs => rw [← List.takeWhile_append_dropWhile (p := fun c => c != '.') (l := m)]
        rw [hrest, List.append_nil]
      right
      have hc1 := hc
      rw [Bool.and_eq_true] at hc1
      rw [hm] at hx
      exact List.all_eq_true.1 hc1.1 x hx
    · rw [if_neg hc] at h
      cases h
  | cons d fp =>
    rw [hrest] at h
    simp only [pyFloatParseTail] at h
    by_cases hc : (((m.takeWhile (fun c => c != '.')).all Char.isDigit && fp.all Char.isDigit)
        && !((m.takeWhile (fun c => c != '.')).isEmpty && fp.isEmpty)) = true
    · have hm : m = m.takeWhile (fun c => c != '.') ++ d :: fp := by
        conv_lhs => rw [← List.takeWhile_append_dropWhile (p := fun c => c != '.') (l := m)]
        rw [hrest]
      have hd : (d != '.') = false := dropWhile_head_false _ m d fp hrest
      have hdd : d = '.' := by simpa using hd
      have hc1 := hc
      rw [Bool.and_eq_true, Bool.and_eq_true] at hc1
      rw [hm] at hx
      rcases List.mem_append.1 hx with h1 | h2
      · right; exact List.all_eq_true.1 hc1.1.1 x h1
      · rcases List.mem_cons.1 h2 with h3 | h4
        · left; rw [h3, hdd]
        · right; exact List.all_eq_true.1 hc1.1.2 x h4
    · rw [if_neg hc] at h
      cases h

theorem splitSign_mem (l : List Char) (x : Char) (hx : x ∈ l) :
    x = '-' ∨ x = '+' ∨ x ∈ (splitSign l).2 := by
  cases l with
  | nil => cases hx
  | cons a t =>
    by_cases h1 : a = '-'
    · subst h1
      rcases List.mem_cons.1 hx with h2 | h2
      · left; exact h2
      · right; right; simpa [splitSign] using h2
    · by_cases h2 : a = '+'
      · subst h2
        rcases List.mem_cons.1 hx with h3 | h3
        · right; left; exact h3
        · right; right; simpa [splitSign, h1] using h3
      · right; right
        simpa [splitSign, h1, h2] using hx

theorem parseL_no_M (l : List Char) (q : PRat) (h : pyFloatParseL l = some q) :
    ∀ x ∈ l, (x == 'M') = false := by
  intro x hx
  rcases splitSign_mem l x hx with h1 | h1 | h1
  · rw [h1]; rfl
  · rw [h1]; rfl
  · rcases parseBody_chars (splitSign l).1 (splitSign l).2 q h x h1 with h2 | h2
    · rw [h2]; rfl
    · exact digit_beq_false x 'M' h2 (by decide)

theorem splitSign_no_sign (a : Char) (t : List Char) (h1 : a ≠ '-') (h2 : a ≠ '+') :
    splitSign (a :: t) = (false, a :: t) := by
  simp [splitSign, h1, h2]

theorem takeWhile_all_append (p : Char → Bool) (l1 l2 : List Char) (y : Char)
    (h1 : ∀ x ∈ l1, p x = true) (h2 : p y = false) :
    (l1 ++ y :: l2).takeWhile p = l1 := by
  induction l1 with
  | nil => simp [List.takeWhile_cons, h2]
  | cons a t ih =>
    rw [List.cons_append, List.takeWhile_cons, h1 a (List.mem_cons_self a t)]
    simp only [if_true]
    rw [ih (fun x hx => h1 x (List.mem_cons_of_mem a hx))]

theorem dropWhile_all_append (p : Char → Bool) (l1 l2 : List Char) (y : Char)
    (h1 : ∀ x ∈ l1, p x = true) (h2 : p y = false) :
    (l1 ++ y :: l2).dropWhile p = y :: l2 := by
  induction l1 with
  | nil => simp [List.dropWhile_cons, h2]
  | cons a t ih =>
    rw [List.cons_append, List.dropWhile_cons, h1 a (List.mem_cons_self a t)]
    simp only [if_true]
    exact ih (fun x hx => h1 x (List.mem_cons_of_mem a hx))

theorem digit_bne_dot (x : Char) (hx : x.isDigit = true) : (x != '.') = true := by
  have := digit_beq_false x '.' hx (by decide)
  simp [bne, this]

theorem parse_df (d f : List Char) (hd : ∀ x ∈ d, x.isDigit = true) (hdne : d ≠ [])
    (hf : ∀ x ∈ f, x.isDigit = true) :
    pyFloatParseL (d ++ '.' :: f) = some (decPointVal d f) := by
  cases d with
  | nil => cases hdne rfl
  | cons a t =>
    have ha := hd a (List.mem_cons_self a t)
    have h1 : a ≠ '-' := by
      intro hh; rw [hh] at ha; exact absurd ha (by decide)
    have h2 : a ≠ '+' := by
      intro hh; rw [hh] at ha; exact absurd ha (by decide)
    unfold pyFloatParseL
    rw [List.cons_append, splitSign_no_sign a (t ++ '.' :: f) h1 h2]
    show pyFloatParseBody false (a :: (t ++ '.' :: f)) = _
    rw [← List.cons_append]
    unfold pyFloatParseBody
    rw [dropWhile_all_append _ _ _ '.' (fun x hx => digit_bne_dot x (hd x hx)) (by decide)]
    rw [takeWhile_all_append _ _ _ '.' (fun x hx => digit_bne_dot x (hd x hx)) (by decide)]
    simp only [pyFloatParseTail]
    rw [if_pos]
    · rw [pySignVal]
      simp only [Bool.false_eq_true, if_false]
    · simp only [Bool.and_eq_true, List.all_eq_true, Bool.not_eq_true']
      refine ⟨⟨fun x hx => hd x hx, fun x hx => hf x hx⟩, ?_⟩
      simp [List.isEmpty]

/-! ## Claim theorems -/

/-- C1: for every well-formed megabyte size string — a decimal number (one
that Python `float` accepts) followed by the suffix `M` — `_size_str_to_int`
returns exactly the integer denoted by the spec's expression
`int(float(prefix) * 1048576)` (`specSizeBytes` applied to the string
minus its final character). -/
theorem c1_size_str_matches_spec (s : String) (n : ℤ)
    (hM : s.data.getLast? = some 'M')
    (hspec : specSizeBytes (String.mk s.data.dropLast) = .ok n) :
    _size_str_to_int s = .ok n := by
  have hsplit : s.data.dropLast ++ ['M'] = s.data :=
    List.dropLast_append_getLast? 'M' (Option.mem_def.2 hM)
  have hspec2 := hspec
  unfold specSizeBytes at hspec2
  cases hpf : pyFloatOfString (String.mk s.data.dropLast) with
  | error e =>
    rw [hpf] at hspec2
    cases hspec2
  | ok fl =>
    rw [hpf] at hspec2
    have hpf2 := hpf
    unfold pyFloatOfString at hpf2
    cases hq : pyFloatParse (String.mk s.data.dropLast) with
    | none =>
      rw [hq] at hpf2
      cases hpf2
    | some q =>
      have hnoM : ∀ x ∈ s.data.dropLast, (x == 'M') = false :=
        parseL_no_M s.data.dropLast q hq
      have hstrip : rstripChar s 'M' = String.mk s.data.dropLast := by
        have hr := rstrip_append_single s.data.dropLast 'M' hnoM
        rw [hsplit] at hr
        exact hr
      unfold _size_str_to_int
      rw [hM]
      show (if 'M' = 'M' then _ else _) = _
      rw [if_pos rfl, hstrip, hpf]
      exact hspec2

/-- C1 witness: the conversion at the concrete size string `"214.7M"`,
whose spec-side value is `225129267` (the byte count given in the source's
own docstring example). -/
theorem c1_size_str_matches_spec_witness :
    ("214.7M".data.getLast? = some 'M')
      ∧ specSizeBytes (String.mk "214.7M".data.dropLast) = .ok 225129267
      ∧ _size_str_to_int "214.7M" = .ok 225129267 :=
  ⟨rfl, by decide, c1_size_str_matches_spec "214.7M" 225129267 rfl (by decide)⟩

/-- C10: `_size_str_to_int` applied to the empty string raises `IndexError`
from the `size[-1]` access, not the documented `ValueError` of the suffix
check. -/
theorem c10_empty_string_index_error :
    _size_str_to_int "" = .error .indexError
      ∧ ∀ msg : String, _size_str_to_int "" ≠ .error (.valueError msg) := by
  refine ⟨rfl, ?_⟩
  intro msg h
  rw [(rfl : _size_str_to_int "" = Except.error PyErr.indexError)] at h
  injection h with h1
  cases h1

/-- C3: for every non-empty input whose final character is not `M`,
`_size_str_to_int` raises a `ValueError` whose message carries both the
unexpected final character and the original input string (the embedding is
a pure function, so there are no side effects to observe). -/
theorem c3_bad_suffix_value_error (s : String) (c : Char)
    (hlast : s.data.getLast? = some c) (hne : c ≠ 'M') :
    _size_str_to_int s
      = .error (.valueError
          ("Unsupported size suffix: " ++ String.singleton c ++ " (" ++ s ++ ")")) := by
  unfold _size_str_to_int
  rw [hlast]
  show (if c = 'M' then _ else _) = _
  rw [if_neg hne]

/-- C3 witness: the concrete input `"5G"`. -/
theorem c3_bad_suffix_value_error_witness :
    ("5G".data.getLast? = some 'G') ∧ ('G' ≠ 'M')
      ∧ _size_str_to_int "5G" = .error (.valueError "Unsupported size suffix: G (5G)") :=
  ⟨rfl, by decide, c3_bad_suffix_value_error "5G" 'G' rfl (by decide)⟩

/-- C2 counterexample: on the valid megabyte string `"1.6M"` (value
`1.6 = 16/10`), the conversion returns `1677721` — the truncation of the
binary64 product — while `round(1.6 * 1048576) = round(1677721.6)` is
`1677722`, so the conversion does not yield `round(value * 1048576)`. -/
theorem c2_round_claim_counterexample :
    _size_str_to_int "1.6M" = .ok 1677721
      ∧ pyRound (PRat.mul (decPointVal ['1'] ['6']) (PRat.ofInt 1048576)) = 1677722
      ∧ (1677721 : ℤ) ≠ 1677722 :=
  ⟨by decide, by decide, by decide⟩

/-- C2 (amended): for every valid megabyte string of the form
`"{d}.{f}M"`, the size conversion yields the truncation toward zero of the
binary64 product `float("{d}.{f}") * 1048576` — which can fall one byte
below `round(value * 1048576)` — as an integer. -/
theorem c2_size_conversion_truncates (d f : List Char) (p : PRat)
    (hd : ∀ x ∈ d, x.isDigit = true) (hdne : d ≠ [])
    (hf : ∀ x ∈ f, x.isDigit = true) (_hfne : f ≠ [])
    (hmul : floatMul (roundDouble (decPointVal d f)) (.finite (PRat.ofInt 1048576))
        = .finite p) :
    _size_str_to_int (String.mk (d ++ '.' :: (f ++ ['M']))) = .ok (truncP p) := by
  have hlist : (d ++ '.' :: f) ++ ['M'] = d ++ '.' :: (f ++ ['M']) := by
    rw [List.append_assoc, List.cons_append]
  have hM : (String.mk (d ++ '.' :: (f ++ ['M']))).data.getLast? = some 'M' := by
    show (d ++ '.' :: (f ++ ['M'])).getLast? = some 'M'
    rw [← hlist]
    exact getLast?_append_single _ 'M'
  have hnoM : ∀ x ∈ d ++ '.' :: f, (x == 'M') = false := by
    intro x hx
    rcases List.mem_append.1 hx with h1 | h2
    · exact digit_beq_false x 'M' (hd x h1) (by decide)
    · rcases List.mem_cons.1 h2 with h3 | h4
      · rw [h3]; rfl
      · exact digit_beq_false x 'M' (hf x h4) (by decide)
  have hstrip : rstripChar (String.mk (d ++ '.' :: (f ++ ['M']))) 'M'
      = String.mk (d ++ '.' :: f) := by
    have hr := rstrip_append_single (d ++ '.' :: f) 'M' hnoM
    rw [hlist] at hr
    exact hr
  unfold _size_str_to_int
  rw [hM]
  show (if 'M' = 'M' then _ else _) = _
  rw [if_pos rfl, hstrip]
  unfold pyFloatOfString
  rw [show pyFloatParse (String.mk (d ++ '.' :: f)) = some (decPointVal d f) from
    parse_df d f hd hdne hf]
  show pyIntOfFloat
      (floatMul (roundDouble (decPointVal d f)) (.finite (PRat.ofInt 1048576))) = _
  rw [hmul]
  rfl

/-- C2 witness: the amended statement at the concrete string `"1.6M"`:
the binary64 product is `7205759403792794 / 2^32 = 1677721.60000…`, and
the conversion yields its truncation `1677721`. -/
theorem c2_size_conversion_truncates_witness :
    (∀ x ∈ ['1'], Char.isDigit x = true) ∧ (['1'] : List Char) ≠ []
      ∧ (∀ x ∈ ['6'], Char.isDigit x = true) ∧ (['6'] : List Char) ≠ []
      ∧ floatMul (roundDouble (decPointVal ['1'] ['6'])) (.finite (PRat.ofInt 1048576))
          = .finite ⟨7205759403792794, 4294967296⟩
      ∧ _size_str_to_int (String.mk (['1'] ++ '.' :: (['6'] ++ ['M']))) = .ok 1677721 :=
  ⟨by decide, by decide, by decide, by decide, by decide,
    (c2_size_conversion_truncates ['1'] ['6'] ⟨7205759403792794, 4294967296⟩
      (by decide) (by decide) (by decide) (by decide) (by decide)).trans (by decide)⟩

theorem pyIntOfString_digits (a : Char) (t : List Char)
    (hdig : ∀ x ∈ a :: t, x.isDigit = true) :
    pyIntOfString (String.mk (a :: t)) = .ok ((decDigitsVal (a :: t) : ℤ)) := by
  have ha := hdig a (List.mem_cons_self a t)
  have h1 : a ≠ '-' := by
    intro hh; rw [hh] at ha; exact absurd ha (by decide)
  have h2 : a ≠ '+' := by
    intro hh; rw [hh] at ha; exact absurd ha (by decide)
  have hcond : ((a :: t).all Char.isDigit && !(a :: t).isEmpty) = true := by
    simp only [List.all_eq_true, List.isEmpty_cons, Bool.not_false, Bool.and_true]
    exact hdig
  unfold pyIntOfString
  rw [show (String.mk (a :: t)).data = a :: t from rfl, splitSign_no_sign a t h1 h2]
  dsimp only
  rw [if_pos hcond]
  rfl

/-- C4: for every percent string of the form `"{n}%"` with `n` a nonempty
digit sequence, the percent conversion performed in `DiskStats.from_dict`
(`int(v.rstrip("%"))`, embedded as `percentConvVal`) strips the trailing
`%` and returns the integer `n`. -/
theorem c4_percent_conversion (l : List Char) (hne : l ≠ [])
    (hdig : ∀ x ∈ l, x.isDigit = true) :
    percentConvVal (.str (String.mk (l ++ ['%']))) = .ok ((decDigitsVal l : ℤ)) := by
  show pyIntOfString (rstripChar (String.mk (l ++ ['%'])) '%') = _
  have hnoP : ∀ x ∈ l, (x == '%') = false := fun x hx =>
    digit_beq_false x '%' (hdig x hx) (by decide)
  rw [rstrip_append_single l '%' hnoP]
  cases l with
  | nil => cases hne rfl
  | cons a t => exact pyIntOfString_digits a t hdig

/-- C4 witness: the concrete percent string `"8%"` yields `8`. -/
theorem c4_percent_conversion_witness :
    (['8'] : List Char) ≠ [] ∧ (∀ x ∈ ['8'], Char.isDigit x = true)
      ∧ percentConvVal (.str (String.mk (['8'] ++ ['%']))) = .ok 8 :=
  ⟨by decide, by decide,
    (c4_percent_conversion ['8'] (by decide) (by decide)).trans (by decide)⟩

/-- C5: `Manifest.from_dict` on `{"entries": [], "current_entry": None}`
yields an empty entry list and a `None` current entry (so the
`active_recording` check on it is false); on a mapping whose
`current_entry` is an entry mapping with exactly the `QmdlManifestEntry`
field names, it yields a manifest whose `current_entry` is the non-`None`
entry carrying exactly the input mapping's values (so the
`active_recording` check is true). -/
theorem c5_manifest_from_dict :
    (QmdlManifest.from_dict [("entries", PyVal.list []), ("current_entry", PyVal.pynone)]
        = (.ok ⟨PyVal.list [], PyVal.pynone⟩,
           [("entries", PyVal.list []), ("current_entry", PyVal.pynone)])
      ∧ activeRecordingCheck ⟨PyVal.list [], PyVal.pynone⟩ = false)
    ∧ ∀ (xs es : List PyVal) (n st lt qs az : PyVal),
        entriesComp xs = .ok es →
        QmdlManifest.from_dict
            [("entries", PyVal.list xs),
             ("current_entry", PyVal.dict
               [("name", n), ("start_time", st), ("last_message_time", lt),
                ("qmdl_size_bytes", qs), ("analysis_size_bytes", az)])]
          = (.ok ⟨PyVal.list es, PyVal.entry n st lt qs az⟩,
             [("entries", PyVal.list es), ("current_entry", PyVal.entry n st lt qs az)])
        ∧ (PyVal.entry n st lt qs az).isNone = false
        ∧ activeRecordingCheck ⟨PyVal.list es, PyVal.entry n st lt qs az⟩ = true := by
  refine ⟨⟨rfl, rfl⟩, ?_⟩
  intro xs es n st lt qs az hes
  refine ⟨?_, rfl, rfl⟩
  simp [QmdlManifest.from_dict, dGet, dSet, entriesComp, entryFromKwargs,
    manifestFromKwargs, entryFieldNames, hes]

/-- C5 witness: the second part at the concrete entry mapping with values
`"r"`, `"s"`, `"t"`, `1`, `2` and an empty entries list. -/
theorem c5_manifest_from_dict_witness :
    entriesComp [] = .ok []
      ∧ QmdlManifest.from_dict
          [("entries", PyVal.list []),
           ("current_entry", PyVal.dict
             [("name", PyVal.str "r"), ("start_time", PyVal.str "s"),
              ("last_message_time", PyVal.str "t"), ("qmdl_size_bytes", PyVal.int 1),
              ("analysis_size_bytes", PyVal.int 2)])]
        = (.ok ⟨PyVal.list [],
                PyVal.entry (PyVal.str "r") (PyVal.str "s") (PyVal.str "t")
                  (PyVal.int 1) (PyVal.int 2)⟩,
           [("entries", PyVal.list []),
            ("current_entry", PyVal.entry (PyVal.str "r") (PyVal.str "s") (PyVal.str "t")
              (PyVal.int 1) (PyVal.int 2))])
      ∧ activeRecordingCheck
          ⟨PyVal.list [],
           PyVal.entry (PyVal.str "r") (PyVal.str "s") (PyVal.str "t")
             (PyVal.int 1) (PyVal.int 2)⟩ = true :=
  ⟨rfl, (c5_manifest_from_dict.2 [] [] _ _ _ _ _ rfl).1,
    (c5_manifest_from_dict.2 [] [] _ _ _ _ _ rfl).2.2⟩

/-- C6 counterexample: when the same entry mapping appears both in
`entries` and as `current_entry`, `QmdlManifest.from_dict` produces a
manifest whose present (non-`None`) `current_entry` equals the sole
element of `entries` — the claimed invariant fails. -/
theorem c6_invariant_counterexample :
    (QmdlManifest.from_dict
        [("entries", PyVal.list
           [PyVal.dict
             [("name", PyVal.str "cap"), ("start_time", PyVal.str "t0"),
              ("last_message_time", PyVal.str "t1"), ("qmdl_size_bytes", PyVal.int 10),
              ("analysis_size_bytes", PyVal.int 3)]]),
         ("current_entry", PyVal.dict
           [("name", PyVal.str "cap"), ("start_time", PyVal.str "t0"),
            ("last_message_time", PyVal.str "t1"), ("qmdl_size_bytes", PyVal.int 10),
            ("analysis_size_bytes", PyVal.int 3)])]).1
      = .ok ⟨PyVal.list
               [PyVal.entry (PyVal.str "cap") (PyVal.str "t0") (PyVal.str "t1")
                 (PyVal.int 10) (PyVal.int 3)],
             PyVal.entry (PyVal.str "cap") (PyVal.str "t0") (PyVal.str "t1")
               (PyVal.int 10) (PyVal.int 3)⟩
      ∧ (PyVal.entry (PyVal.str "cap") (PyVal.str "t0") (PyVal.str "t1")
          (PyVal.int 10) (PyVal.int 3)).isNone = false
      ∧ PyVal.entry (PyVal.str "cap") (PyVal.str "t0") (PyVal.str "t1")
          (PyVal.int 10) (PyVal.int 3)
        ∈ [PyVal.entry (PyVal.str "cap") (PyVal.str "t0") (PyVal.str "t1")
            (PyVal.int 10) (PyVal.int 3)] :=
  ⟨rfl, rfl, List.Mem.head _⟩

/-- C6 (amended): `from_dict` does not enforce the invariant; it holds
exactly when the input provides it: whenever the converted `current_entry`
differs from every converted element of `entries`, the resulting
manifest's `current_entry` is not duplicated in `entries`. -/
theorem c6_no_duplicate_conditional (xs es : List PyVal) (cd : PyDict) (ce : PyVal)
    (hes : entriesComp xs = .ok es) (hce : entryFromKwargs cd = .ok ce)
    (hnotin : ce ∉ es) :
    (QmdlManifest.from_dict
        [("entries", PyVal.list xs), ("current_entry", PyVal.dict cd)]).1
      = .ok ⟨PyVal.list es, ce⟩
    ∧ ce ∉ es := by
  refine ⟨?_, hnotin⟩
  simp [QmdlManifest.from_dict, dGet, dSet, manifestFromKwargs, hes, hce]

/-- C6 witness: an input whose `current_entry` mapping is absent from
`entries` (here `entries` is empty) yields a manifest with no
duplication. -/
theorem c6_no_duplicate_conditional_witness :
    entriesComp [] = .ok []
      ∧ entryFromKwargs
          [("name", PyVal.str "cap"), ("start_time", PyVal.str "t0"),
           ("last_message_time", PyVal.str "t1"), ("qmdl_size_bytes", PyVal.int 10),
           ("analysis_size_bytes", PyVal.int 3)]
        = .ok (PyVal.entry (PyVal.str "cap") (PyVal.str "t0") (PyVal.str "t1")
            (PyVal.int 10) (PyVal.int 3))
      ∧ (QmdlManifest.from_dict
          [("entries", PyVal.list []),
           ("current_entry", PyVal.dict
             [("name", PyVal.str "cap"), ("start_time", PyVal.str "t0"),
              ("last_message_time", PyVal.str "t1"), ("qmdl_size_bytes", PyVal.int 10),
              ("analysis_size_bytes", PyVal.int 3)])]).1
        = .ok ⟨PyVal.list [],
               PyVal.entry (PyVal.str "cap") (PyVal.str "t0") (PyVal.str "t1")
                 (PyVal.int 10) (PyVal.int 3)⟩ :=
  ⟨rfl, rfl,
    (c6_no_duplicate_conditional [] []
      [("name", PyVal.str "cap"), ("start_time", PyVal.str "t0"),
       ("last_message_time", PyVal.str "t1"), ("qmdl_size_bytes", PyVal.int 10),
       ("analysis_size_bytes", PyVal.int 3)]
      (PyVal.entry (PyVal.str "cap") (PyVal.str "t0") (PyVal.str "t1")
        (PyVal.int 10) (PyVal.int 3))
      rfl rfl (by simp)).1⟩

/-- C7: `DiskStats.from_dict` on a mapping with megabyte-suffixed size
strings, a percent-suffixed `used_percent` string and passthrough
`partition` / `mounted_on` strings returns a `DiskStats` whose size fields
are the unit-converted byte counts, whose `used_percent` is the parsed
integer, and whose `partition` and `mounted_on` are unchanged. -/
theorem c7_disk_stats_from_dict (p ts us avs up mo : String) (a b c n : ℤ)
    (hts : _size_str_to_int ts = .ok a) (hus : _size_str_to_int us = .ok b)
    (havs : _size_str_to_int avs = .ok c)
    (hup : pyIntOfString (rstripChar up '%') = .ok n) :
    DiskStats.from_dict
        [("partition", PyVal.str p), ("total_size", PyVal.str ts),
         ("used_size", PyVal.str us), ("available_size", PyVal.str avs),
         ("used_percent", PyVal.str up), ("mounted_on", PyVal.str mo)]
      = (.ok ⟨PyVal.str p, PyVal.int a, PyVal.int b, PyVal.int c,
              PyVal.int n, PyVal.str mo⟩,
         [("partition", PyVal.str p), ("total_size", PyVal.int a),
          ("used_size", PyVal.int b), ("available_size", PyVal.int c),
          ("used_percent", PyVal.int n), ("mounted_on", PyVal.str mo)]) := by
  simp [DiskStats.from_dict, convSizeKey, dGet, dSet, sizeConvVal, percentConvVal,
    diskFromKwargs, hts, hus, havs, hup]

/-- C7 witness: the spec's section-8 example mapping; `total_size` comes
out as `225129267`, which equals `round(214.7 * 1048576)` (the spec's
`round` and the code's truncation agree on this input), and `used_percent`
comes out as `8`. -/
theorem c7_disk_stats_from_dict_witness :
    _size_str_to_int "214.7M" = .ok 225129267
      ∧ _size_str_to_int "17.5M" = .ok 18350080
      ∧ _size_str_to_int "197.2M" = .ok 206779187
      ∧ pyIntOfString (rstripChar "8%" '%') = .ok 8
      ∧ DiskStats.from_dict
          [("partition", PyVal.str "ubi0:usrfs"), ("total_size", PyVal.str "214.7M"),
           ("used_size", PyVal.str "17.5M"), ("available_size", PyVal.str "197.2M"),
           ("used_percent", PyVal.str "8%"), ("mounted_on", PyVal.str "/data")]
        = (.ok ⟨PyVal.str "ubi0:usrfs", PyVal.int 225129267, PyVal.int 18350080,
                PyVal.int 206779187, PyVal.int 8, PyVal.str "/data"⟩,
           [("partition", PyVal.str "ubi0:usrfs"), ("total_size", PyVal.int 225129267),
            ("used_size", PyVal.int 18350080), ("available_size", PyVal.int 206779187),
            ("used_percent", PyVal.int 8), ("mounted_on", PyVal.str "/data")])
      ∧ (225129267 : ℤ)
          = pyRound (PRat.mul (decPointVal ['2', '1', '4'] ['7']) (PRat.ofInt 1048576)) :=
  ⟨by decide, by decide, by decide, by decide,
    c7_disk_stats_from_dict "ubi0:usrfs" "214.7M" "17.5M" "197.2M" "8%" "/data"
      _ _ _ _ (by decide) (by decide) (by decide) (by decide),
    by decide⟩

/-- C9: the three `from_dict` deserializers rewrite the caller's mapping in
place, replacing its string-valued fields by the converted values; when a
later field's conversion raises, the mapping is left partially converted
(earlier fields already replaced) rather than unchanged.  Shown on
`DiskStats` (success, and failure at `available_size`), `MemoryStats`
(success, and failure at `free`) and `QmdlManifest` (failure at
`current_entry` after `entries` was already replaced). -/
theorem c9_from_dict_mutation :
    DiskStats.from_dict
        [("partition", PyVal.str "ubi0:usrfs"), ("total_size", PyVal.str "1.0M"),
         ("used_size", PyVal.str "2.0M"), ("available_size", PyVal.str "3.0M"),
         ("used_percent", PyVal.str "8%"), ("mounted_on", PyVal.str "/data")]
      = (.ok ⟨PyVal.str "ubi0:usrfs", PyVal.int 1048576, PyVal.int 2097152,
              PyVal.int 3145728, PyVal.int 8, PyVal.str "/data"⟩,
         [("partition", PyVal.str "ubi0:usrfs"), ("total_size", PyVal.int 1048576),
          ("used_size", PyVal.int 2097152), ("available_size", PyVal.int 3145728),
          ("used_percent", PyVal.int 8), ("mounted_on", PyVal.str "/data")])
    ∧ DiskStats.from_dict
        [("partition", PyVal.str "ubi0:usrfs"), ("total_size", PyVal.str "1.0M"),
         ("used_size", PyVal.str "2.0M"), ("available_size", PyVal.str "bad"),
         ("used_percent", PyVal.str "8%"), ("mounted_on", PyVal.str "/data")]
      = (.error (.valueError "Unsupported size suffix: d (bad)"),
         [("partition", PyVal.str "ubi0:usrfs"), ("total_size", PyVal.int 1048576),
          ("used_size", PyVal.int 2097152), ("available_size", PyVal.str "bad"),
          ("used_percent", PyVal.str "8%"), ("mounted_on", PyVal.str "/data")])
    ∧ MemoryStats.from_dict
        [("total", PyVal.str "1.0M"), ("used", PyVal.str "2.0M"),
         ("free", PyVal.str "3.0M")]
      = (.ok ⟨PyVal.int 1048576, PyVal.int 2097152, PyVal.int 3145728⟩,
         [("total", PyVal.int 1048576), ("used", PyVal.int 2097152),
          ("free", PyVal.int 3145728)])
    ∧ MemoryStats.from_dict
        [("total", PyVal.str "1.0M"), ("used", PyVal.str "2.0M"),
         ("free", PyVal.str "x")]
      = (.error (.valueError "Unsupported size suffix: x (x)"),
         [("total", PyVal.int 1048576), ("used", PyVal.int 2097152),
          ("free", PyVal.str "x")])
    ∧ QmdlManifest.from_dict
        [("entries", PyVal.list
           [PyVal.dict
             [("name", PyVal.str "r"), ("start_time", PyVal.str "s"),
              ("last_message_time", PyVal.str "t"), ("qmdl_size_bytes", PyVal.int 1),
              ("analysis_size_bytes", PyVal.int 2)]]),
         ("current_entry", PyVal.dict [])]
      = (.error .typeError,
         [("entries", PyVal.list
            [PyVal.entry (PyVal.str "r") (PyVal.str "s") (PyVal.str "t")
              (PyVal.int 1) (PyVal.int 2)]),
          ("current_entry", PyVal.dict [])]) :=
  ⟨rfl, rfl, rfl, rfl, rfl⟩

/-- C8 (amended): for every client method and every HTTP response whose
status is a 4xx or 5xx code at the endpoint the method hits, the method
fails with exactly the `HTTPError` of that status, propagated unmodified
(no wrapping, no retry, no partial result).  Statuses outside 2xx that are
not 4xx/5xx (such as 304) do not trip `raise_for_status`, so the original
"any non-2xx" phrasing does not hold. -/
theorem c8_http_error_propagation (api : RayhunterApi) (t : Transport) (fn : String) :
    (400 ≤ (t.get (urljoinAbs api._url "/api/qmdl-manifest")).status →
      (t.get (urljoinAbs api._url "/api/qmdl-manifest")).status < 600 →
      api.get_manifest t
        = .error (.httpError (t.get (urljoinAbs api._url "/api/qmdl-manifest")).status))
    ∧ (400 ≤ (t.get (urljoinAbs api._url ("/api/analysis-report/" ++ fn))).status →
        (t.get (urljoinAbs api._url ("/api/analysis-report/" ++ fn))).status < 600 →
        api.get_analysis_report_file t fn
          = .error (.httpError
              (t.get (urljoinAbs api._url ("/api/analysis-report/" ++ fn))).status))
    ∧ (400 ≤ (t.get (urljoinAbs api._url ("/api/pcap/" ++ fn))).status →
        (t.get (urljoinAbs api._url ("/api/pcap/" ++ fn))).status < 600 →
        api.get_pcap_file t fn
          = .error (.httpError (t.get (urljoinAbs api._url ("/api/pcap/" ++ fn))).status))
    ∧ (400 ≤ (t.get (urljoinAbs api._url ("/api/qmdl/" ++ fn))).status →
        (t.get (urljoinAbs api._url ("/api/qmdl/" ++ fn))).status < 600 →
        api.get_qmdl_file t fn
          = .error (.httpError (t.get (urljoinAbs api._url ("/api/qmdl/" ++ fn))).status))
    ∧ (400 ≤ (t.post (urljoinAbs api._url "/api/start-recording")).status →
        (t.post (urljoinAbs api._url "/api/start-recording")).status < 600 →
        api.start_recording t
          = .error (.httpError (t.post (urljoinAbs api._url "/api/start-recording")).status))
    ∧ (400 ≤ (t.post (urljoinAbs api._url "/api/stop-recording")).status →
        (t.post (urljoinAbs api._url "/api/stop-recording")).status < 600 →
        api.stop_recording t
          = .error (.httpError (t.post (urljoinAbs api._url "/api/stop-recording")).status))
    ∧ (400 ≤ (t.get (urljoinAbs api._url "/api/system-stats")).status →
        (t.get (urljoinAbs api._url "/api/system-stats")).status < 600 →
        api.system_stats t
          = .error (.httpError (t.get (urljoinAbs api._url "/api/system-stats")).status)) := by
  refine ⟨?_, ?_, ?_, ?_, ?_, ?_, ?_⟩
  · intro h1 h2
    unfold RayhunterApi.get_manifest raise_for_status
    rw [if_pos ⟨h1, h2⟩]
  · intro h1 h2
    unfold RayhunterApi.get_analysis_report_file RayhunterApi._get_file_content
      raise_for_status
    rw [if_pos ⟨h1, h2⟩]
  · intro h1 h2
    unfold RayhunterApi.get_pcap_file RayhunterApi._get_file_content raise_for_status
    rw [if_pos ⟨h1, h2⟩]
  · intro h1 h2
    unfold RayhunterApi.get_qmdl_file RayhunterApi._get_file_content raise_for_status
    rw [if_pos ⟨h1, h2⟩]
  · intro h1 h2
    unfold RayhunterApi.start_recording raise_for_status
    rw [if_pos ⟨h1, h2⟩]
  · intro h1 h2
    unfold RayhunterApi.stop_recording raise_for_status
    rw [if_pos ⟨h1, h2⟩]
  · intro h1 h2
    unfold RayhunterApi.system_stats raise_for_status
    rw [if_pos ⟨h1, h2⟩]

/-- C8 counterexample: a transport answering 304 (a non-2xx status) to
every request makes `stop_recording` return normally — `raise_for_status`
only raises for 4xx/5xx — so not every non-2xx response makes the methods
fail. -/
theorem c8_non2xx_counterexample :
    RayhunterApi.stop_recording ⟨ "http://dev:8080/" ⟩
        ⟨fun _ => ⟨304, none, []⟩, fun _ => ⟨304, none, []⟩⟩ = .ok ()
      ∧ ((⟨fun _ => ⟨304, none, []⟩, fun _ => ⟨304, none, []⟩⟩ : Transport).post
          (urljoinAbs "http://dev:8080/" "/api/stop-recording")).status = 304
      ∧ ¬(200 ≤ 304 ∧ 304 < 300) :=
  ⟨rfl, rfl, by decide⟩

/-- C8 witness: with a transport answering 404 everywhere, each of the
seven client methods fails with `HTTPError 404`. -/
theorem c8_http_error_propagation_witness :
    RayhunterApi.get_manifest ⟨ "http://dev:8080/" ⟩
        ⟨fun _ => ⟨404, none, []⟩, fun _ => ⟨404, none, []⟩⟩
      = .error (.httpError 404)
    ∧ RayhunterApi.get_analysis_report_file ⟨ "http://dev:8080/" ⟩
        ⟨fun _ => ⟨404, none, []⟩, fun _ => ⟨404, none, []⟩⟩ "a.ndjson"
      = .error (.httpError 404)
    ∧ RayhunterApi.get_pcap_file ⟨ "http://dev:8080/" ⟩
        ⟨fun _ => ⟨404, none, []⟩, fun _ => ⟨404, none, []⟩⟩ "a.pcapng"
      = .error (.httpError 404)
    ∧ RayhunterApi.get_qmdl_file ⟨ "http://dev:8080/" ⟩
        ⟨fun _ => ⟨404, none, []⟩, fun _ => ⟨404, none, []⟩⟩ "a.qmdl"
      = .error (.httpError 404)
    ∧ RayhunterApi.start_recording ⟨ "http://dev:8080/" ⟩
        ⟨fun _ => ⟨404, none, []⟩, fun _ => ⟨404, none, []⟩⟩
      = .error (.httpError 404)
    ∧ RayhunterApi.stop_recording ⟨ "http://dev:8080/" ⟩
        ⟨fun _ => ⟨404, none, []⟩, fun _ => ⟨404, none, []⟩⟩
      = .error (.httpError 404)
    ∧ RayhunterApi.system_stats ⟨ "http://dev:8080/" ⟩
        ⟨fun _ => ⟨404, none, []⟩, fun _ => ⟨404, none, []⟩⟩
      = .error (.httpError 404) :=
  ⟨(c8_http_error_propagation _ _ "x").1 (by decide) (by decide),
   (c8_http_error_propagation _ ⟨fun _ => ⟨404, none, []⟩, fun _ => ⟨404, none, []⟩⟩
     "a.ndjson").2.1 (by decide) (by decide),
   (c8_http_error_propagation _ ⟨fun _ => ⟨404, none, []⟩, fun _ => ⟨404, none, []⟩⟩
     "a.pcapng").2.2.1 (by decide) (by decide),
   (c8_http_error_propagation _ ⟨fun _ => ⟨404, none, []⟩, fun _ => ⟨404, none, []⟩⟩
     "a.qmdl").2.2.2.1 (by decide) (by decide),
   (c8_http_error_propagation _ _ "x").2.2.2.2.1 (by decide) (by decide),
   (c8_http_error_propagation _ _ "x").2.2.2.2.2.1 (by decide) (by decide),
   (c8_http_error_propagation _ _ "x").2.2.2.2.2.2 (by decide) (by decide)⟩
